import Mathlib

/-
  Verification of the payment-settlement workflow of the ballon-backend
  repository, embedded shallowly from src/controllers/phonepeController.js.

  Statuses and payment methods are the literal strings the code uses
  ("pending", "completed", "pending_upfront", "failed"; "cod", "online").
  Optional JS fields are Option values; JS truthiness of a string field
  (undefined, null and "" are falsy) is modelled by truthyStr.
  Database collections are association lists keyed by their id field;
  mongoose save / findOneAndUpdate replaces the documents with the same key.
  Amounts are rationals.  Side-effect steps that the code wraps in
  try/catch blocks are driven by an EffectOracle saying which of them
  would throw; a throwing step is caught and leaves the store untouched,
  exactly as the catch blocks in the code do.
-/

namespace BallonBackend

/-- JS truthiness of an optional string field: undefined/null (none) and the
empty string are falsy. -/
def truthyStr : Option String → Bool
  | none => false
  | some s => s != ""

/-- The JS idiom `s || d` for an optional string with a default. -/
def jsOr (s : Option String) (d : String) : String :=
  match s with
  | none => d
  | some s => if s = "" then d else s

/-- The library call String.prototype.toLowerCase, modelled
character-wise (the values compared in the webhook handler are hex
digests, so ASCII). -/
def strToLower (s : String) : String := String.mk (s.data.map Char.toLower)

/-- The JS idiom `item.quantity || 1` (phonepeController.js line 326): a
missing, null or zero quantity is falsy and defaults to 1. -/
def jsQuantity : Option Nat → Nat
  | none => 1
  | some 0 => 1
  | some q => q

/-- A line item of an order, as built by createPhonePeOrder
(phonepeController.js lines 178-184). -/
structure OrderItem where
  productId : Option String
  name : String
  price : ℚ
  quantity : Option Nat
  image : Option String
deriving DecidableEq

/-- An Order document, restricted to the fields the settlement workflow
reads and writes.  customOrderId is the identity key used for saves. -/
structure Order where
  customOrderId : String
  paymentStatus : String
  paymentMethod : String
  transactionId : Option String
  phonepeMerchantOrderId : Option String
  sellerToken : Option String
  totalAmount : ℚ
  items : List OrderItem
deriving DecidableEq

/-- A Product document, restricted to the fields touched by the stock
logic (phonepeController.js lines 320-334).  stock is Option because the
code guards with `product.stock || 0`. -/
structure Product where
  id : String
  stock : Option Nat
  inStock : Bool
deriving DecidableEq

/-- A Seller document: the fields read by the commission logic. -/
structure Seller where
  id : String
  sellerToken : String
  businessName : String
deriving DecidableEq

/-- A commission ledger entry, holding exactly the four arguments that
processOrderPayment passes to createCommissionEntry
(phonepeController.js line 311). -/
structure CommissionEntry where
  orderId : String
  sellerId : String
  baseAmount : ℚ
  rate : ℚ
deriving DecidableEq

/-- The persistent state the settlement workflow touches: Order store,
Product store, Seller store, commission ledger, and the log of
confirmation emails that were sent (by customOrderId). -/
structure DB where
  orders : List Order
  products : List Product
  sellers : List Seller
  commissions : List CommissionEntry
  emailsSent : List String
deriving DecidableEq

/-- Which of the try/catch-wrapped side-effect steps of
processOrderPayment would throw on this run.  A throwing step is caught
by the corresponding catch block and leaves the store untouched. -/
structure EffectOracle where
  commissionFails : Bool
  stockFails : String → Bool
  emailFails : Bool

/-- mongoose order.save(): replace the stored document with the same
identity key. -/
def DB.saveOrder (db : DB) (o : Order) : DB :=
  { db with orders :=
      db.orders.map (fun x => if x.customOrderId = o.customOrderId then o else x) }

/-- mongoose product.save(): replace the stored document with the same id. -/
def DB.saveProduct (db : DB) (p : Product) : DB :=
  { db with products :=
      db.products.map (fun x => if x.id = p.id then p else x) }

/-- The stock field of the stored product with the given id, when one
exists. -/
def DB.stockOf (db : DB) (pid : String) : Option (Option Nat) :=
  (db.products.find? (fun p => p.id == pid)).map (fun p => p.stock)

/-- The availability flag of the stored product with the given id, when
one exists. -/
def DB.inStockOf (db : DB) (pid : String) : Option Bool :=
  (db.products.find? (fun p => p.id == pid)).map (fun p => p.inStock)

/-- The paymentStatus of the stored order with the given customOrderId,
when one exists. -/
def DB.orderStatusOf (db : DB) (cid : String) : Option String :=
  (db.orders.find? (fun o => o.customOrderId == cid)).map (fun o => o.paymentStatus)

/-- The fixed commission rate hard-coded at phonepeController.js line 310. -/
def commissionRate : ℚ := 30 / 100

/-- Commission block of processOrderPayment (phonepeController.js lines
302-317): when the order carries a truthy sellerToken, resolve the seller
by token and create one commission entry with the order id, seller id,
order total and the fixed rate; any error inside the block is caught. -/
def applyCommission (eff : EffectOracle) (db : DB) (order : Order) : DB :=
  if truthyStr order.sellerToken then
    if eff.commissionFails then db
    else
      match db.sellers.find? (fun s => some s.sellerToken == order.sellerToken) with
      | some seller =>
          { db with commissions := db.commissions ++
              [{ orderId := order.customOrderId
                 sellerId := seller.id
                 baseAmount := order.totalAmount
                 rate := commissionRate }] }
      | none => db
  else db

/-- Stock block body of processOrderPayment for one item
(phonepeController.js lines 320-334): for an item with a truthy product
reference, look the product up and set
stock := max 0 ((stock or 0) - (quantity or 1)), flipping inStock to
false when the new stock is 0; any error for this item is caught and the
loop moves on. -/
def applyStockItem (eff : EffectOracle) (db : DB) (item : OrderItem) : DB :=
  match item.productId with
  | none => db
  | some pid =>
    if pid = "" then db
    else if eff.stockFails pid then db
    else
      match db.products.find? (fun p => p.id == pid) with
      | some product =>
          let newStock := product.stock.getD 0 - jsQuantity item.quantity
          db.saveProduct
            { product with
              stock := some newStock
              inStock := if newStock = 0 then false else product.inStock }
      | none => db

/-- The `for (const item of order.items)` stock loop, left to right. -/
def applyStockItems (eff : EffectOracle) (items : List OrderItem) (db : DB) : DB :=
  items.foldl (applyStockItem eff) db

/-- Notification block of processOrderPayment (phonepeController.js lines
336-343): best-effort confirmation email, errors caught. -/
def applyEmail (eff : EffectOracle) (db : DB) (order : Order) : DB :=
  if eff.emailFails then db
  else { db with emailsSent := db.emailsSent ++ [order.customOrderId] }

/-- The Settlement Reconciler: processOrderPayment
(phonepeController.js lines 279-350).  Guard on an already
completed / pending_upfront order; otherwise commit the target status
(pending_upfront for payment method "cod", completed otherwise) and the
transaction id, then run commission, stock and email side effects in
that order, each independently caught. -/
def processOrderPayment (eff : EffectOracle) (db : DB) (order : Order)
    (transactionId : Option String) : Order × DB :=
  if order.paymentStatus = "completed" ∨ order.paymentStatus = "pending_upfront" then
    (order, db)
  else
    let targetStatus := if order.paymentMethod = "cod" then "pending_upfront" else "completed"
    let order1 : Order :=
      { order with
        paymentStatus := targetStatus
        transactionId := if truthyStr transactionId then transactionId else order.transactionId }
    let db1 := db.saveOrder order1
    let db2 := applyCommission eff db1 order1
    let db3 := applyStockItems eff order1.items db2
    let db4 := applyEmail eff db3 order1
    (order1, db4)

/-- An HTTP JSON response as the handlers produce it (status code,
success flag, message, and for the status endpoints the echoed gateway
payload). -/
structure HttpResponse where
  status : Nat
  success : Bool
  message : String
  payloadData : Option String := none
deriving DecidableEq

/-- The inner payload of a PhonePe webhook body
(phonepeController.js lines 392-393). -/
structure WebhookPayload where
  merchantOrderId : Option String
  transactionId : Option String
  state : Option String
deriving DecidableEq

/-- A PhonePe webhook request body. -/
structure WebhookBody where
  event : Option String
  payload : Option WebhookPayload
deriving DecidableEq

/-- The order lookup both webhook branches use
(phonepeController.js lines 402-407 and 421-427): first order matching
phonepeMerchantOrderId = merchantOrderId or transactionId = transactionId. -/
def findOrderByWebhookKeys (db : DB) (payload : WebhookPayload) : Option Order :=
  db.orders.find? (fun o =>
    o.phonepeMerchantOrderId == payload.merchantOrderId ||
    o.transactionId == payload.transactionId)

/-- The checkout.order.failed branch (phonepeController.js lines
419-429): findOneAndUpdate the first matching order to paymentStatus
"failed". -/
def markOrderFailed (db : DB) (payload : WebhookPayload) : DB :=
  match findOrderByWebhookKeys db payload with
  | none => db
  | some o => db.saveOrder { o with paymentStatus := "failed" }

/-- The webhook handler phonePeWebhook (phonepeController.js lines
355-440).  hashHex stands for the library call
crypto.createHash applied with sha256 and hex digest; webhookUsername and
webhookPassword are the configured environment values (none = unset). -/
def phonePeWebhook (hashHex : String → String)
    (webhookUsername webhookPassword : Option String)
    (eff : EffectOracle) (db : DB)
    (authHeader : Option String) (body : WebhookBody) : HttpResponse × DB :=
  if ¬ truthyStr authHeader then
    ({ status := 401, success := false, message := "Unauthorized" }, db)
  else if ¬ truthyStr webhookUsername ∨ ¬ truthyStr webhookPassword then
    ({ status := 500, success := false, message := "Server configuration error" }, db)
  else
    let expectedHash :=
      hashHex (webhookUsername.getD "" ++ ":" ++ webhookPassword.getD "")
    if strToLower (authHeader.getD "") ≠ strToLower expectedHash then
      ({ status := 401, success := false, message := "Unauthorized" }, db)
    else if ¬ truthyStr body.event ∨ body.payload = none then
      ({ status := 400, success := false, message := "Invalid payload structure" }, db)
    else
      let payload := body.payload.getD { merchantOrderId := none, transactionId := none, state := none }
      if body.event = some "checkout.order.completed" then
        if payload.state ≠ some "COMPLETED" then
          ({ status := 200, success := true, message := "Ignored non-completed state" }, db)
        else
          match findOrderByWebhookKeys db payload with
          | none => ({ status := 404, success := false, message := "Order not found" }, db)
          | some order =>
            ({ status := 200, success := true, message := "Webhook processed successfully" },
             (processOrderPayment eff db order payload.transactionId).2)
      else if body.event = some "checkout.order.failed" then
        ({ status := 200, success := true, message := "Payment failed event received" },
         markOrderFailed db payload)
      else
        ({ status := 200, success := true, message := "Event ignored" }, db)

/-- A gateway status-query response body (the fields these handlers
read).  The handlers receive Except (thrown network error) of an Option
(response.data may be absent). -/
structure StatusData where
  state : Option String
  orderId : Option String
deriving DecidableEq

/-- A client callback request body (phonepeController.js line 444). -/
structure CallbackBody where
  merchantOrderId : Option String
  orderId : Option String
  status : Option String
deriving DecidableEq

/-- The id the callback handler verifies against the gateway
(phonepeController.js line 454): orderId when truthy, else merchantOrderId. -/
def jsIdToVerify (body : CallbackBody) : String :=
  if truthyStr body.orderId then body.orderId.getD ""
  else body.merchantOrderId.getD ""

/-- The order lookup of the callback handler
(phonepeController.js lines 479-486). -/
def findOrderByCallbackKeys (db : DB) (body : CallbackBody) : Option Order :=
  db.orders.find? (fun o =>
    o.phonepeMerchantOrderId == body.merchantOrderId ||
    o.phonepeMerchantOrderId == body.orderId ||
    o.transactionId == body.orderId ||
    o.transactionId == body.merchantOrderId)

/-- The client callback handler phonePeCallback (phonepeController.js
lines 442-515).  gateway stands for the status query against the
processor: an Except String value models a thrown request error. -/
def phonePeCallback (gateway : String → Except String (Option StatusData))
    (eff : EffectOracle) (db : DB) (body : CallbackBody) : HttpResponse × DB :=
  if ¬ truthyStr body.merchantOrderId ∧ ¬ truthyStr body.orderId then
    ({ status := 400, success := false,
       message := "Invalid callback data: merchantOrderId or orderId required" }, db)
  else
    match gateway (jsIdToVerify body) with
    | .error _ =>
        ({ status := 500, success := false, message := "Verification failed" }, db)
    | .ok dataOpt =>
      match dataOpt with
      | some data =>
        if data.state = some "COMPLETED" then
          match findOrderByCallbackKeys db body with
          | some order =>
            let txn := if truthyStr body.orderId then body.orderId else data.orderId
            ({ status := 200, success := true, message := "Payment completed successfully" },
             (processOrderPayment eff db order txn).2)
          | none =>
            ({ status := 404, success := false, message := "Order not found" }, db)
        else
          ({ status := 200, success := false,
             message := "Payment status: " ++ jsOr data.state "Unknown" }, db)
      | none =>
          ({ status := 200, success := false,
             message := "Payment status: " ++ "Unknown" }, db)

/-- The order lookup of the status-poll handler
(phonepeController.js lines 548-553). -/
def findOrderByPollKey (db : DB) (orderId : Option String) : Option Order :=
  db.orders.find? (fun o =>
    o.phonepeMerchantOrderId == orderId || o.transactionId == orderId)

/-- The status-poll handler getPhonePeStatus (phonepeController.js lines
517-577).  When the gateway reports COMPLETED and the stored order is
still pending it proactively applies the reconciler; it always echoes
the gateway payload (in this model, its state string). -/
def getPhonePeStatus (gateway : String → Except String (Option StatusData))
    (eff : EffectOracle) (db : DB) (orderId : Option String) : HttpResponse × DB :=
  if ¬ truthyStr orderId then
    ({ status := 400, success := false, message := "orderId is required" }, db)
  else
    match gateway (orderId.getD "") with
    | .error _ =>
        ({ status := 500, success := false, message := "Failed to check status" }, db)
    | .ok dataOpt =>
      match dataOpt with
      | some data =>
        if data.state = some "COMPLETED" then
          let db1 :=
            match findOrderByPollKey db orderId with
            | some order =>
              if order.paymentStatus = "pending" then
                (processOrderPayment eff db order orderId).2
              else db
            | none => db
          ({ status := 200, success := true, message := "Payment completed",
             payloadData := data.state }, db1)
        else
          ({ status := 200, success := false, message := jsOr data.state "Unknown",
             payloadData := data.state }, db)
      | none =>
          ({ status := 200, success := false, message := "Unknown" }, db)

/-- A processor checkout-creation response body (the fields
createPhonePeOrder reads at phonepeController.js lines 239-266). -/
structure PayResponse where
  orderId : Option String
  redirectUrl : Option String
  state : Option String
  message : Option String
deriving DecidableEq

/-- Outcome of the checkout-creation call: thrown request error (for
example a timeout) or a response whose data may be absent. -/
inductive GatewayOutcome where
  | thrown (message : String)
  | ok (data : Option PayResponse)
deriving DecidableEq

/-- The tail of createPhonePeOrder after the pending order has been
saved (phonepeController.js lines 226-275): on a response carrying an
orderId, store the transaction id and answer success; on a response body
without one, mark the saved order failed and answer 500 with the
processor message when present; a thrown error reaches the outer catch,
which answers 500 without touching the saved order (the ok-none case
also lands there, because the else branch dereferences
response.data.message and throws). -/
def createPhonePeOrderSettle (db : DB) (savedOrder : Order)
    (outcome : GatewayOutcome) : HttpResponse × DB :=
  match outcome with
  | .ok (some data) =>
    if truthyStr data.orderId then
      ({ status := 200, success := true, message := "" },
       db.saveOrder { savedOrder with transactionId := data.orderId })
    else
      ({ status := 500, success := false,
         message := jsOr data.message "PhonePe payment initiation failed" },
       db.saveOrder { savedOrder with paymentStatus := "failed" })
  | .ok none =>
      ({ status := 500, success := false,
         message := "Failed to create PhonePe order" }, db)
  | .thrown msg =>
      ({ status := 500, success := false,
         message := jsOr (some msg) "Failed to create PhonePe order" }, db)

/-! Helper lemmas. -/

/-- find? commutes with mapping a function that preserves the predicate. -/
theorem find?_map_pres {α : Type} (f : α → α) (p : α → Bool) (l : List α)
    (h : ∀ a, p (f a) = p a) : (l.map f).find? p = (l.find? p).map f := by
  induction l with
  | nil => rfl
  | cons a t ih =>
    simp only [List.map_cons, List.find?_cons]
    rw [h a]
    cases p a <;> simp [ih]

theorem saveOrder_products (db : DB) (o : Order) :
    (db.saveOrder o).products = db.products := rfl

theorem saveOrder_commissions (db : DB) (o : Order) :
    (db.saveOrder o).commissions = db.commissions := rfl

theorem saveOrder_emailsSent (db : DB) (o : Order) :
    (db.saveOrder o).emailsSent = db.emailsSent := rfl

theorem saveOrder_sellers (db : DB) (o : Order) :
    (db.saveOrder o).sellers = db.sellers := rfl

theorem applyCommission_emailsSent (eff : EffectOracle) (db : DB) (o : Order) :
    (applyCommission eff db o).emailsSent = db.emailsSent := by
  unfold applyCommission
  repeat' split
  all_goals rfl

theorem applyCommission_products (eff : EffectOracle) (db : DB) (o : Order) :
    (applyCommission eff db o).products = db.products := by
  unfold applyCommission
  repeat' split
  all_goals rfl

theorem applyStockItem_commissions (eff : EffectOracle) (db : DB) (item : OrderItem) :
    (applyStockItem eff db item).commissions = db.commissions := by
  unfold applyStockItem DB.saveProduct
  repeat' split
  all_goals rfl

theorem applyStockItem_emailsSent (eff : EffectOracle) (db : DB) (item : OrderItem) :
    (applyStockItem eff db item).emailsSent = db.emailsSent := by
  unfold applyStockItem DB.saveProduct
  repeat' split
  all_goals rfl

theorem applyStockItems_commissions (eff : EffectOracle) (items : List OrderItem) :
    ∀ db : DB, (applyStockItems eff items db).commissions = db.commissions := by
  induction items with
  | nil => intro db; rfl
  | cons a t ih =>
    intro db
    have hstep : applyStockItems eff (a :: t) db =
        applyStockItems eff t (applyStockItem eff db a) := rfl
    rw [hstep, ih, applyStockItem_commissions]

theorem applyStockItems_emailsSent (eff : EffectOracle) (items : List OrderItem) :
    ∀ db : DB, (applyStockItems eff items db).emailsSent = db.emailsSent := by
  induction items with
  | nil => intro db; rfl
  | cons a t ih =>
    intro db
    have hstep : applyStockItems eff (a :: t) db =
        applyStockItems eff t (applyStockItem eff db a) := rfl
    rw [hstep, ih, applyStockItem_emailsSent]

theorem applyEmail_commissions (eff : EffectOracle) (db : DB) (o : Order) :
    (applyEmail eff db o).commissions = db.commissions := by
  unfold applyEmail
  split
  all_goals rfl

theorem applyEmail_emailsSent_ok (eff : EffectOracle) (db : DB) (o : Order)
    (h : eff.emailFails = false) :
    (applyEmail eff db o).emailsSent = db.emailsSent ++ [o.customOrderId] := by
  unfold applyEmail
  rw [h]
  rfl

/-- A run of the effect oracle on which no side-effect step throws. -/
def effAllOk : EffectOracle :=
  { commissionFails := false, stockFails := fun _ => false, emailFails := false }

/-! Claim C1. -/

/-- Claim C1: for every order whose paymentStatus is already completed or
pending_upfront, any further call to the reconciler processOrderPayment,
with any transaction id, returns the order unchanged and performs no
side effect at all: the whole store (products, commissions, email log,
orders) is returned untouched. -/
theorem c1_idempotency_guard (eff : EffectOracle) (db : DB) (order : Order)
    (txn : Option String)
    (h : order.paymentStatus = "completed" ∨ order.paymentStatus = "pending_upfront") :
    processOrderPayment eff db order txn = (order, db) := by
  unfold processOrderPayment
  rw [if_pos h]

/-- A completed order and a store containing it, used to instantiate the
guard theorem. -/
def wOrderCompleted : Order :=
  { customOrderId := "decorationcelebration1"
    paymentStatus := "completed"
    paymentMethod := "online"
    transactionId := some "OMO1"
    phonepeMerchantOrderId := some "MT1"
    sellerToken := some "tok1"
    totalAmount := 500
    items := [{ productId := some "p1", name := "Balloon arch", price := 500,
                quantity := some 1, image := none }] }

def wDbC1 : DB :=
  { orders := [wOrderCompleted]
    products := [{ id := "p1", stock := some 3, inStock := true }]
    sellers := [{ id := "s1", sellerToken := "tok1", businessName := "Decor shop" }]
    commissions := []
    emailsSent := [] }

theorem c1_idempotency_guard_witness :
    processOrderPayment effAllOk wDbC1 wOrderCompleted (some "T9") = (wOrderCompleted, wDbC1) :=
  c1_idempotency_guard effAllOk wDbC1 wOrderCompleted (some "T9") (Or.inl rfl)

/-! Claim C2. -/

/-- An order already marked failed, with a product-bearing item. -/
def cexOrderFailed : Order :=
  { customOrderId := "decorationcelebration2"
    paymentStatus := "failed"
    paymentMethod := "online"
    transactionId := none
    phonepeMerchantOrderId := some "MT2"
    sellerToken := none
    totalAmount := 500
    items := [{ productId := some "p1", name := "Balloon arch", price := 500,
                quantity := some 1, image := none }] }

def cexDbFailed : DB :=
  { orders := [cexOrderFailed]
    products := [{ id := "p1", stock := some 3, inStock := true }]
    sellers := []
    commissions := []
    emailsSent := [] }

/-- Counterexample to claim C2 as stated: applying the reconciler to an
order whose paymentStatus is "failed" does transition it to "completed"
and does run the side effects (the stock of the referenced product drops
from 3 to 2 and a confirmation email is sent). -/
theorem c2_counterexample :
    (processOrderPayment effAllOk cexDbFailed cexOrderFailed (some "T2")).1.paymentStatus
        = "completed" ∧
    (processOrderPayment effAllOk cexDbFailed cexOrderFailed (some "T2")).2.stockOf "p1"
        = some (some 2) ∧
    (processOrderPayment effAllOk cexDbFailed cexOrderFailed (some "T2")).2.emailsSent
        = ["decorationcelebration2"] := by
  decide

/-- Claim C2 as amended: the idempotency guard of processOrderPayment
covers only "completed" and "pending_upfront"; an order whose
paymentStatus is "failed" is not protected — a success signal applied to
it transitions it to the method-derived target status (pending_upfront
for "cod", otherwise "completed") and re-runs the side effects (a
confirmation email is recorded whenever the email step does not throw). -/
theorem c2_failed_order_reprocessed (eff : EffectOracle) (db : DB) (order : Order)
    (txn : Option String) (h : order.paymentStatus = "failed") :
    (processOrderPayment eff db order txn).1.paymentStatus =
      (if order.paymentMethod = "cod" then "pending_upfront" else "completed") ∧
    (eff.emailFails = false →
      (processOrderPayment eff db order txn).2.emailsSent =
        db.emailsSent ++ [order.customOrderId]) := by
  have hguard : ¬ (order.paymentStatus = "completed" ∨ order.paymentStatus = "pending_upfront") := by
    rw [h]; simp
  unfold processOrderPayment
  rw [if_neg hguard]
  constructor
  · rfl
  · intro hm
    simp only
    rw [applyEmail_emailsSent_ok _ _ _ hm, applyStockItems_emailsSent,
        applyCommission_emailsSent, saveOrder_emailsSent]

theorem c2_failed_order_reprocessed_witness :
    (processOrderPayment effAllOk cexDbFailed cexOrderFailed (some "T2")).1.paymentStatus
        = "completed" ∧
    (processOrderPayment effAllOk cexDbFailed cexOrderFailed (some "T2")).2.emailsSent
        = ["decorationcelebration2"] := by
  have h := c2_failed_order_reprocessed effAllOk cexDbFailed cexOrderFailed (some "T2") rfl
  exact ⟨h.1.trans (by decide), (h.2 rfl).trans (by decide)⟩

/-! Claim C3. -/

/-- Claim C3: for a pending order whose payment method is
cash-on-delivery (the code spells it "cod"), a verified payment success
applied through the reconciler sets paymentStatus to "pending_upfront"
and never to "completed"; for a pending order with any other payment
method it sets "completed". -/
theorem c3_cod_target_status (eff : EffectOracle) (db : DB) (order : Order)
    (txn : Option String) (h : order.paymentStatus = "pending") :
    (order.paymentMethod = "cod" →
       (processOrderPayment eff db order txn).1.paymentStatus = "pending_upfront" ∧
       (processOrderPayment eff db order txn).1.paymentStatus ≠ "completed") ∧
    (order.paymentMethod ≠ "cod" →
       (processOrderPayment eff db order txn).1.paymentStatus = "completed") := by
  have hguard : ¬ (order.paymentStatus = "completed" ∨ order.paymentStatus = "pending_upfront") := by
    rw [h]; simp
  unfold processOrderPayment
  rw [if_neg hguard]
  constructor
  · intro hcod
    simp only [hcod]
    exact ⟨by simp, by simp⟩
  · intro hcod
    simp [hcod]

/-- A pending cash-on-delivery order with an upfront leg. -/
def wOrderCod : Order :=
  { customOrderId := "decorationcelebration3"
    paymentStatus := "pending"
    paymentMethod := "cod"
    transactionId := none
    phonepeMerchantOrderId := some "MT3"
    sellerToken := none
    totalAmount := 400
    items := [] }

def wDbC3 : DB :=
  { orders := [wOrderCod], products := [], sellers := [], commissions := [], emailsSent := [] }

theorem c3_cod_target_status_witness :
    (processOrderPayment effAllOk wDbC3 wOrderCod (some "T3")).1.paymentStatus
        = "pending_upfront" ∧
    (processOrderPayment effAllOk wDbC3 wOrderCod (some "T3")).1.paymentStatus
        ≠ "completed" := by
  have h := c3_cod_target_status effAllOk wDbC3 wOrderCod (some "T3") rfl
  exact h.1 rfl

/-! Claim C4. -/

/-- A freshly created pending order, as saved by createPhonePeOrder
before the processor call. -/
def cexOrderPendingC4 : Order :=
  { customOrderId := "decorationcelebration4"
    paymentStatus := "pending"
    paymentMethod := "online"
    transactionId := none
    phonepeMerchantOrderId := some "MT4"
    sellerToken := none
    totalAmount := 750
    items := [] }

def cexDbC4 : DB :=
  { orders := [cexOrderPendingC4], products := [], sellers := [], commissions := [], emailsSent := [] }

/-- Counterexample to claim C4 as stated: when the processor call throws
(for example a timeout), the outer catch of createPhonePeOrder answers
500 but never touches the saved order, whose paymentStatus therefore
stays "pending" rather than becoming "failed". -/
theorem c4_counterexample :
    (createPhonePeOrderSettle cexDbC4 cexOrderPendingC4
        (.thrown "timeout of 30000ms exceeded")).2.orderStatusOf "decorationcelebration4"
      = some "pending" ∧
    (createPhonePeOrderSettle cexDbC4 cexOrderPendingC4
        (.thrown "timeout of 30000ms exceeded")).1.status = 500 ∧
    (createPhonePeOrderSettle cexDbC4 cexOrderPendingC4
        (.thrown "timeout of 30000ms exceeded")).1.success = false := by
  decide

/-- Saving an order whose key exists in the store makes the stored
status that of the saved document. -/
theorem orderStatusOf_saveOrder (db : DB) (o : Order)
    (h : db.orderStatusOf o.customOrderId ≠ none) :
    (db.saveOrder o).orderStatusOf o.customOrderId = some o.paymentStatus := by
  unfold DB.orderStatusOf DB.saveOrder at *
  simp only
  rw [find?_map_pres]
  · cases hf : db.orders.find? (fun x => x.customOrderId == o.customOrderId) with
    | none => rw [hf] at h; simp at h
    | some a =>
      have ha : a.customOrderId = o.customOrderId := by
        have := List.find?_some hf
        simpa using this
      simp [hf, ha]
  · intro a
    by_cases ha : a.customOrderId = o.customOrderId <;> simp [ha]

/-- Claim C4 as amended: when the processor answers the checkout-creation
call with a body that carries no orderId, the pre-created order is
marked "failed" and the caller receives a 500 failure response carrying
the processor's message when one is present; when the call throws (for
example a timeout), the caller receives a 500 failure response but the
saved order is left untouched, still "pending". -/
theorem c4_checkout_failure_paths (db : DB) (o : Order) (data : PayResponse) (msg : String)
    (hok : truthyStr data.orderId = false)
    (hex : db.orderStatusOf o.customOrderId ≠ none) :
    ((createPhonePeOrderSettle db o (.ok (some data))).1.status = 500 ∧
     (createPhonePeOrderSettle db o (.ok (some data))).1.success = false ∧
     (createPhonePeOrderSettle db o (.ok (some data))).1.message =
       jsOr data.message "PhonePe payment initiation failed" ∧
     (createPhonePeOrderSettle db o (.ok (some data))).2.orderStatusOf o.customOrderId =
       some "failed") ∧
    ((createPhonePeOrderSettle db o (.thrown msg)).1.status = 500 ∧
     (createPhonePeOrderSettle db o (.thrown msg)).1.success = false ∧
     (createPhonePeOrderSettle db o (.thrown msg)).2 = db) := by
  constructor
  · unfold createPhonePeOrderSettle
    simp only [hok, Bool.false_eq_true, if_neg, not_false_iff]
    refine ⟨trivial, trivial, trivial, ?_⟩
    exact orderStatusOf_saveOrder db { o with paymentStatus := "failed" } hex
  · exact ⟨rfl, rfl, rfl⟩

theorem c4_checkout_failure_paths_witness :
    (createPhonePeOrderSettle cexDbC4 cexOrderPendingC4
        (.ok (some { orderId := none, redirectUrl := none, state := none,
                     message := some "KEY_NOT_CONFIGURED" }))).1.message
      = "KEY_NOT_CONFIGURED" ∧
    (createPhonePeOrderSettle cexDbC4 cexOrderPendingC4
        (.ok (some { orderId := none, redirectUrl := none, state := none,
                     message := some "KEY_NOT_CONFIGURED" }))).2.orderStatusOf
          "decorationcelebration4" = some "failed" := by
  have h := c4_checkout_failure_paths cexDbC4 cexOrderPendingC4
      { orderId := none, redirectUrl := none, state := none,
        message := some "KEY_NOT_CONFIGURED" } "unused" rfl (by decide)
  exact ⟨h.1.2.2.1.trans (by decide), h.1.2.2.2⟩

/-! Claim C5. -/

/-- Claim C5: a webhook request with a missing Authorization header, or
one whose value differs case-insensitively from the hex digest of
username:password (hashHex standing for the sha256 hex digest the code
computes), is answered 401 with no order mutation; when the webhook
username or password is not configured (and a header is present, which
is the order the code checks in), the answer is 500, again with no
mutation. -/
theorem c5_webhook_auth (hashHex : String → String) (u p : Option String)
    (eff : EffectOracle) (db : DB) (authHeader : Option String) (body : WebhookBody) :
    (truthyStr authHeader = false →
       phonePeWebhook hashHex u p eff db authHeader body =
         ({ status := 401, success := false, message := "Unauthorized" }, db)) ∧
    (truthyStr authHeader = true → truthyStr u = true → truthyStr p = true →
       strToLower (authHeader.getD "") ≠
         strToLower (hashHex (u.getD "" ++ ":" ++ p.getD "")) →
       phonePeWebhook hashHex u p eff db authHeader body =
         ({ status := 401, success := false, message := "Unauthorized" }, db)) ∧
    (truthyStr authHeader = true → (truthyStr u = false ∨ truthyStr p = false) →
       phonePeWebhook hashHex u p eff db authHeader body =
         ({ status := 500, success := false, message := "Server configuration error" }, db)) := by
  refine ⟨?_, ?_, ?_⟩
  · intro h
    unfold phonePeWebhook
    rw [if_pos]
    simp [h]
  · intro h hu hp hne
    unfold phonePeWebhook
    rw [if_neg (by simp [h]), if_neg (by simp [hu, hp]), if_pos hne]
  · intro h hcfg
    unfold phonePeWebhook
    rw [if_neg (by simp [h]), if_pos]
    rcases hcfg with hc | hc <;> simp [hc]

def wDbC5 : DB :=
  { orders := [wOrderCod], products := [], sellers := [], commissions := [], emailsSent := [] }

theorem c5_webhook_auth_witness :
    phonePeWebhook (fun _ => "a1b2") (some "user") (some "pass") effAllOk wDbC5
        (some "deadbeef")
        { event := some "checkout.order.completed",
          payload := some { merchantOrderId := some "MT3", transactionId := some "T3",
                            state := some "COMPLETED" } } =
      ({ status := 401, success := false, message := "Unauthorized" }, wDbC5) := by
  have h := c5_webhook_auth (fun _ => "a1b2") (some "user") (some "pass") effAllOk wDbC5
      (some "deadbeef")
      { event := some "checkout.order.completed",
        payload := some { merchantOrderId := some "MT3", transactionId := some "T3",
                          state := some "COMPLETED" } }
  exact h.2.1 rfl rfl rfl (by decide)

/-! Claim C6. -/

/-- find? over the product store after a save whose document has the
looked-up id. -/
theorem find?_saveProduct (db : DB) (pnew : Product) (pid : String)
    (hid : pnew.id = pid) :
    (db.saveProduct pnew).products.find? (fun p => p.id == pid) =
      (db.products.find? (fun p => p.id == pid)).map
        (fun x => if x.id = pnew.id then pnew else x) := by
  unfold DB.saveProduct
  simp only
  apply find?_map_pres
  intro a
  by_cases ha : a.id = pnew.id
  · simp [ha, hid]
  · simp [ha]

/-- The effect of the per-item stock step on the referenced product:
the stored stock becomes (stock or 0) minus (quantity or 1), truncated
at zero by Nat subtraction, and the availability flag is cleared exactly
when the new stock is zero. -/
theorem stockOf_applyStockItem (eff : EffectOracle) (db : DB) (item : OrderItem)
    (pid : String) (product : Product)
    (hpid : item.productId = some pid) (hne : pid ≠ "")
    (hok : eff.stockFails pid = false)
    (hfind : db.products.find? (fun p => p.id == pid) = some product) :
    (applyStockItem eff db item).stockOf pid =
      some (some (product.stock.getD 0 - jsQuantity item.quantity)) ∧
    (applyStockItem eff db item).inStockOf pid =
      some (if product.stock.getD 0 - jsQuantity item.quantity = 0 then false
            else product.inStock) := by
  have hidp : product.id = pid := by
    have := List.find?_some hfind
    simpa using this
  unfold applyStockItem
  rw [hpid]
  simp only [hne, if_false, hok, Bool.false_eq_true, if_neg, not_false_iff, hfind]
  unfold DB.stockOf DB.inStockOf
  rw [find?_saveProduct, hfind]
  · simp [hidp]
  · exact hidp

/-- An item whose product id is marked as throwing (or is empty) leaves
the store untouched: the catch block swallows the error. -/
theorem applyStockItem_noop_of_fails (eff : EffectOracle) (db : DB) (item : OrderItem)
    (pid : String) (hpid : item.productId = some pid)
    (hf : eff.stockFails pid = true) : applyStockItem eff db item = db := by
  unfold applyStockItem
  rw [hpid]
  by_cases h : pid = "" <;> simp [h, hf]

/-- Claim C6: for a settled line item referencing a stored product with
stock N and ordered quantity q (q nonzero, so the quantity default does
not kick in): if q ≤ N the post-settlement stock is N - q; if q > N the
post-settlement stock is 0 and the availability flag is false; and the
per-item try/catch isolates failures — a failing item in the stock loop
is a no-op and the remaining items are processed exactly as if it were
absent. -/
theorem c6_stock_decrement (eff : EffectOracle) (db : DB) (item : OrderItem)
    (pid : String) (product : Product) (q N : Nat)
    (hpid : item.productId = some pid) (hne : pid ≠ "")
    (hok : eff.stockFails pid = false)
    (hfind : db.products.find? (fun p => p.id == pid) = some product)
    (hstock : product.stock = some N) (hq : item.quantity = some q) (hq0 : q ≠ 0) :
    ((q ≤ N → (applyStockItem eff db item).stockOf pid = some (some (N - q))) ∧
     (N < q → (applyStockItem eff db item).stockOf pid = some (some 0) ∧
              (applyStockItem eff db item).inStockOf pid = some false)) ∧
    (∀ (eff2 : EffectOracle) (db2 : DB) (xs ys : List OrderItem)
       (bad : OrderItem) (bpid : String),
       bad.productId = some bpid → eff2.stockFails bpid = true →
       applyStockItems eff2 (xs ++ bad :: ys) db2 = applyStockItems eff2 (xs ++ ys) db2) := by
  have hqq : jsQuantity item.quantity = q := by
    rw [hq]
    cases q with
    | zero => exact absurd rfl hq0
    | succ n => rfl
  have hmain := stockOf_applyStockItem eff db item pid product hpid hne hok hfind
  rw [hstock, hqq] at hmain
  simp only [Option.getD_some] at hmain
  constructor
  · constructor
    · intro _
      exact hmain.1
    · intro hlt
      have hz : N - q = 0 := Nat.sub_eq_zero_of_le (Nat.le_of_lt hlt)
      refine ⟨?_, ?_⟩
      · rw [hmain.1, hz]
      · rw [hmain.2]
        simp [hz]
  · intro eff2 db2 xs ys bad bpid hbpid hbf
    unfold applyStockItems
    rw [List.foldl_append, List.foldl_append, List.foldl_cons,
        applyStockItem_noop_of_fails eff2 _ bad bpid hbpid hbf]

def wDbC6 : DB :=
  { orders := []
    products := [{ id := "p6", stock := some 3, inStock := true },
                 { id := "p7", stock := some 1, inStock := true }]
    sellers := []
    commissions := []
    emailsSent := [] }

def wItemC6 : OrderItem :=
  { productId := some "p6", name := "Balloon arch", price := 500,
    quantity := some 2, image := none }

/-- An oracle run on which only product p9 throws in the stock loop. -/
def effBadP9 : EffectOracle :=
  { commissionFails := false, stockFails := fun s => s == "p9", emailFails := false }

def wItemC6bad : OrderItem :=
  { productId := some "p9", name := "Banner", price := 1, quantity := some 1, image := none }

theorem c6_stock_decrement_witness :
    (applyStockItem effAllOk wDbC6 wItemC6).stockOf "p6" = some (some 1) ∧
    applyStockItems effBadP9 [wItemC6bad, wItemC6] wDbC6 =
      applyStockItems effBadP9 [wItemC6] wDbC6 := by
  have h := c6_stock_decrement effAllOk wDbC6 wItemC6 "p6"
      { id := "p6", stock := some 3, inStock := true } 2 3
      rfl (by decide) rfl (by decide) rfl rfl (by decide)
  exact ⟨h.1.1 (by decide), h.2 effBadP9 wDbC6 [] [wItemC6] wItemC6bad "p9" rfl rfl⟩

/-! Claim C7. -/

/-- A falsy seller token (absent or empty) makes the commission block a
no-op. -/
theorem applyCommission_noop_of_noToken (eff : EffectOracle) (db : DB) (o : Order)
    (h : truthyStr o.sellerToken = false) : applyCommission eff db o = db := by
  unfold applyCommission
  simp [h]

/-- A throwing commission block is caught and leaves the store
untouched. -/
theorem applyCommission_noop_of_fails (eff : EffectOracle) (db : DB) (o : Order)
    (h : eff.commissionFails = true) : applyCommission eff db o = db := by
  unfold applyCommission
  by_cases ht : truthyStr o.sellerToken = true <;> simp [ht, h]

/-- A resolving seller token on a non-throwing run appends exactly one
ledger entry with the order id, seller id, order total and fixed rate. -/
theorem applyCommission_creates (eff : EffectOracle) (db : DB) (o : Order)
    (tok : String) (seller : Seller)
    (htok : o.sellerToken = some tok) (hne : tok ≠ "")
    (hcf : eff.commissionFails = false)
    (hfind : db.sellers.find? (fun s => s.sellerToken == tok) = some seller) :
    applyCommission eff db o =
      { db with commissions := db.commissions ++
          [{ orderId := o.customOrderId, sellerId := seller.id,
             baseAmount := o.totalAmount, rate := commissionRate }] } := by
  unfold applyCommission
  rw [htok]
  simp [truthyStr, hne, hcf, hfind]

/-- Claim C7: an order without a seller token never produces a
commission entry through the reconciler; a pending order whose seller
token resolves to a stored seller produces exactly one entry, carrying
the fixed 30 percent rate and the order total as base amount; and a
throwing commission step is swallowed — the ledger is unchanged but the
payment status is still committed to its target. -/
theorem c7_commission (eff : EffectOracle) (db : DB) (order : Order)
    (txn : Option String) :
    (order.sellerToken = none →
       (processOrderPayment eff db order txn).2.commissions = db.commissions) ∧
    (∀ (tok : String) (seller : Seller),
       order.paymentStatus = "pending" → order.sellerToken = some tok → tok ≠ "" →
       eff.commissionFails = false →
       db.sellers.find? (fun s => s.sellerToken == tok) = some seller →
       (processOrderPayment eff db order txn).2.commissions =
         db.commissions ++
           [{ orderId := order.customOrderId, sellerId := seller.id,
              baseAmount := order.totalAmount, rate := commissionRate }]) ∧
    (order.paymentStatus = "pending" → eff.commissionFails = true →
       (processOrderPayment eff db order txn).2.commissions = db.commissions ∧
       (processOrderPayment eff db order txn).1.paymentStatus =
         (if order.paymentMethod = "cod" then "pending_upfront" else "completed")) := by
  refine ⟨?_, ?_, ?_⟩
  · intro hnone
    by_cases hg : order.paymentStatus = "completed" ∨ order.paymentStatus = "pending_upfront"
    · unfold processOrderPayment
      rw [if_pos hg]
    · unfold processOrderPayment
      rw [if_neg hg]
      simp only
      rw [applyEmail_commissions, applyStockItems_commissions,
          applyCommission_noop_of_noToken _ _ _ (by simp [truthyStr, hnone]),
          saveOrder_commissions]
  · intro tok seller hpend htok hne hcf hfind
    have hg : ¬ (order.paymentStatus = "completed" ∨ order.paymentStatus = "pending_upfront") := by
      rw [hpend]; simp
    unfold processOrderPayment
    rw [if_neg hg]
    simp only
    rw [applyEmail_commissions, applyStockItems_commissions]
    have hcreates := applyCommission_creates eff
        (db.saveOrder
          { order with
            paymentStatus := if order.paymentMethod = "cod" then "pending_upfront" else "completed"
            transactionId := if truthyStr txn = true then txn else order.transactionId })
        { order with
          paymentStatus := if order.paymentMethod = "cod" then "pending_upfront" else "completed"
          transactionId := if truthyStr txn = true then txn else order.transactionId }
        tok seller htok hne hcf hfind
    rw [hcreates]
    rfl
  · intro hpend hcf
    have hg : ¬ (order.paymentStatus = "completed" ∨ order.paymentStatus = "pending_upfront") := by
      rw [hpend]; simp
    unfold processOrderPayment
    rw [if_neg hg]
    constructor
    · simp only
      rw [applyEmail_commissions, applyStockItems_commissions,
          applyCommission_noop_of_fails _ _ _ hcf, saveOrder_commissions]
    · rfl

def wOrderSellerC7 : Order :=
  { customOrderId := "decorationcelebration7"
    paymentStatus := "pending"
    paymentMethod := "online"
    transactionId := none
    phonepeMerchantOrderId := some "MT7"
    sellerToken := some "tok7"
    totalAmount := 1000
    items := [] }

def wSellerC7 : Seller :=
  { id := "s7", sellerToken := "tok7", businessName := "Party shop" }

def wDbC7 : DB :=
  { orders := [wOrderSellerC7], products := [], sellers := [wSellerC7],
    commissions := [], emailsSent := [] }

theorem c7_commission_witness :
    (processOrderPayment effAllOk wDbC7 wOrderSellerC7 (some "T7")).2.commissions =
      [{ orderId := "decorationcelebration7", sellerId := "s7",
         baseAmount := 1000, rate := commissionRate }] := by
  have h := (c7_commission effAllOk wDbC7 wOrderSellerC7 (some "T7")).2.1
      "tok7" wSellerC7 rfl rfl (by decide) rfl (by decide)
  simpa using h

/-! Claim C8. -/

/-- Claim C8: the client callback handler never lets the client-supplied
status field influence anything — two callback requests differing only
in that field produce the identical response and store — and the store
is mutated only when the gateway status query itself reports COMPLETED:
whenever the gateway answer for the verified id is an error, an empty
body, or any non-COMPLETED state, the store is returned unchanged. -/
theorem c8_callback_gateway_only (gw : String → Except String (Option StatusData))
    (eff : EffectOracle) (db : DB) (m o : Option String) :
    (∀ s1 s2 : Option String,
       phonePeCallback gw eff db { merchantOrderId := m, orderId := o, status := s1 } =
       phonePeCallback gw eff db { merchantOrderId := m, orderId := o, status := s2 }) ∧
    (∀ s : Option String,
       (∀ d : StatusData,
          gw (jsIdToVerify { merchantOrderId := m, orderId := o, status := s }) =
            .ok (some d) →
          d.state ≠ some "COMPLETED") →
       (phonePeCallback gw eff db { merchantOrderId := m, orderId := o, status := s }).2
         = db) := by
  constructor
  · intro s1 s2
    rfl
  · intro s hgw
    cases hg : gw (jsIdToVerify { merchantOrderId := m, orderId := o, status := s }) with
    | error e =>
      simp only [phonePeCallback, hg]
      split <;> rfl
    | ok dataOpt =>
      cases dataOpt with
      | none =>
        simp only [phonePeCallback, hg]
        split <;> rfl
      | some d =>
        have hne := hgw d hg
        simp only [phonePeCallback, hg, if_neg hne]
        split <;> rfl

def wOrderC8 : Order :=
  { customOrderId := "decorationcelebration8"
    paymentStatus := "pending"
    paymentMethod := "online"
    transactionId := some "OMO8"
    phonepeMerchantOrderId := some "MT8"
    sellerToken := none
    totalAmount := 200
    items := [] }

def wDbC8 : DB :=
  { orders := [wOrderC8], products := [], sellers := [], commissions := [], emailsSent := [] }

/-- A gateway run whose status query reports FAILED. -/
def gwFailed : String → Except String (Option StatusData) :=
  fun _ => .ok (some { state := some "FAILED", orderId := none })

theorem c8_callback_gateway_only_witness :
    (phonePeCallback gwFailed effAllOk wDbC8
        { merchantOrderId := some "MT8", orderId := some "OMO8",
          status := some "COMPLETED" }).2 = wDbC8 := by
  have h := c8_callback_gateway_only gwFailed effAllOk wDbC8 (some "MT8") (some "OMO8")
  refine h.2 (some "COMPLETED") ?_
  intro d hd
  have he : (some { state := some "FAILED", orderId := none } : Option StatusData) = some d := by
    injection hd
  have hdd : d = { state := some "FAILED", orderId := none } :=
    (Option.some.inj he).symm
  rw [hdd]
  decide

/-! Claim C9. -/

/-- Claim C9: the status-poll handler dispatches the reconciler only
when the stored order is exactly "pending" — with a gateway answer of
COMPLETED but a stored order in any other state (failed, completed,
pending_upfront) the store is returned unchanged, and the handler still
answers 200 echoing the gateway payload. -/
theorem c9_poll_only_pending (gw : String → Except String (Option StatusData))
    (eff : EffectOracle) (db : DB) (orderId : Option String) (data : StatusData)
    (htr : truthyStr orderId = true)
    (hgw : gw (orderId.getD "") = .ok (some data))
    (hst : data.state = some "COMPLETED")
    (hnp : ∀ o : Order, findOrderByPollKey db orderId = some o →
       o.paymentStatus ≠ "pending") :
    (getPhonePeStatus gw eff db orderId).2 = db ∧
    (getPhonePeStatus gw eff db orderId).1 =
      { status := 200, success := true, message := "Payment completed",
        payloadData := data.state } := by
  unfold getPhonePeStatus
  rw [if_neg (by simp [htr]), hgw]
  simp only
  rw [if_pos hst]
  cases hf : findOrderByPollKey db orderId with
  | none => simp [hf]
  | some o =>
    have hnpo := hnp o hf
    simp [hf, hnpo]

def wOrderFailedC9 : Order :=
  { customOrderId := "decorationcelebration9"
    paymentStatus := "failed"
    paymentMethod := "online"
    transactionId := some "OMO9"
    phonepeMerchantOrderId := some "MT9"
    sellerToken := none
    totalAmount := 100
    items := [] }

def wDbC9 : DB :=
  { orders := [wOrderFailedC9], products := [], sellers := [], commissions := [], emailsSent := [] }

/-- A gateway run whose status query reports COMPLETED. -/
def gwCompleted : String → Except String (Option StatusData) :=
  fun _ => .ok (some { state := some "COMPLETED", orderId := none })

theorem c9_poll_only_pending_witness :
    (getPhonePeStatus gwCompleted effAllOk wDbC9 (some "OMO9")).2 = wDbC9 := by
  have h := c9_poll_only_pending gwCompleted effAllOk wDbC9 (some "OMO9")
      { state := some "COMPLETED", orderId := none } rfl rfl rfl ?_
  · exact h.1
  · intro o ho
    have he : wOrderFailedC9 = o := Option.some.inj ho
    rw [← he]
    decide

/-! Claim C10. -/

/-- Claim C10: during settlement, an item with a product reference whose
quantity is missing/null or zero decrements the referenced product's
stock by 1 (the falsy quantity defaults to 1), and a product whose stock
field is missing is treated as stock 0 before the decrement, leaving 0
after flooring. -/
theorem c10_falsy_quantity (eff : EffectOracle) (db : DB) (item : OrderItem)
    (pid : String) (product : Product)
    (hpid : item.productId = some pid) (hne : pid ≠ "")
    (hok : eff.stockFails pid = false)
    (hfind : db.products.find? (fun p => p.id == pid) = some product) :
    ((item.quantity = none ∨ item.quantity = some 0) →
       (applyStockItem eff db item).stockOf pid =
         some (some (product.stock.getD 0 - 1))) ∧
    (product.stock = none →
       (applyStockItem eff db item).stockOf pid = some (some 0)) ∧
    (jsQuantity none = 1 ∧ jsQuantity (some 0) = 1) := by
  have hmain := stockOf_applyStockItem eff db item pid product hpid hne hok hfind
  refine ⟨?_, ?_, rfl, rfl⟩
  · intro hq
    rcases hq with hq | hq
    · rw [hmain.1, hq]
      rfl
    · rw [hmain.1, hq]
      rfl
  · intro hs
    rw [hmain.1, hs]
    simp

def wItemC10 : OrderItem :=
  { productId := some "pX", name := "Confetti", price := 5, quantity := some 0, image := none }

def wDbC10 : DB :=
  { orders := [], products := [{ id := "pX", stock := none, inStock := true }],
    sellers := [], commissions := [], emailsSent := [] }

theorem c10_falsy_quantity_witness :
    (applyStockItem effAllOk wDbC10 wItemC10).stockOf "pX" = some (some 0) := by
  have h := c10_falsy_quantity effAllOk wDbC10 wItemC10 "pX"
      { id := "pX", stock := none, inStock := true } rfl (by decide) rfl (by decide)
  exact h.2.1 rfl

end BallonBackend
